import Mathlib

/-!
Shallow embedding of `src/jsonrpchttp.py` (class `JsonRpcServer`): a JSON-RPC
2.0 server over an HTTP/WSGI gateway.

Modelling conventions:
* Python values that can appear in this code path (JSON-decoded data, request
  ids, handler return values, packed addresses) are modelled by `Py`.
* Python dicts are modelled as association lists of string keys; dicts decoded
  from JSON always have string keys, and duplicate keys cannot occur in a real
  Python dict (theorems that depend on this carry a `Nodup` hypothesis).
* Exceptions the code can raise are modelled with `Except PyExc`.
* Calling a registered handler is a side effect; it is modelled by threading an
  explicit trace of `CallArgs` records through the processing functions.
* `json.loads`/`json.dumps` and `ipaddress.ip_address` are external library
  calls: the parse outcome of the request body is an input (`Env.body`, with
  `Option.none` for the `ValueError` that the code catches), the packed address
  is modelled opaquely by `Py.bytes`, and the serialized response body is
  modelled by the `WsgiBody` tag instead of a concrete byte string.
-/

namespace JsonRpcHttp

/-- Python runtime values reachable in this code path. `float` and `bytes`
carry an opaque textual tag only; the code never computes with them. -/
inductive Py where
  | none
  | bool (b : Bool)
  | int (n : Int)
  | float (tag : String)
  | str (s : String)
  | bytes (b : String)
  | list (xs : List Py)
  | tuple (xs : List Py)
  | dict (entries : List (String × Py))

/-- Python exceptions this module can raise and not catch. -/
inductive PyExc where
  | attributeError (attr : String)
  | indexError
deriving DecidableEq

def Py.isStr : Py → Bool
  | .str _ => true
  | _ => false

def Py.isInt : Py → Bool
  | .int _ => true
  | _ => false

def Py.isList : Py → Bool
  | .list _ => true
  | _ => false

def Py.isDict : Py → Bool
  | .dict _ => true
  | _ => false

def Py.isNone : Py → Bool
  | .none => true
  | _ => false

def Py.isTuple : Py → Bool
  | .tuple _ => true
  | _ => false

/-- Python `len` on the values it is applied to here (`params` is always a
validated list or dict at the call site; other cases are unreachable). -/
def pyLen : Py → Nat
  | .str s => s.length
  | .list xs => xs.length
  | .tuple xs => xs.length
  | .dict entries => entries.length
  | _ => 0

/-! Protocol and extension error constants (module top of jsonrpchttp.py).
Each is the Python 2-tuple `(code, message)`. -/

def PARSE_ERROR : List Py := [Py.int (-32700), Py.str "Parse error"]

def INVALID_REQUEST : List Py := [Py.int (-32600), Py.str "Invalid Request"]

def METHOD_NOT_FOUND : List Py := [Py.int (-32601), Py.str "Method not found"]

def INVALID_PARAMS : List Py := [Py.int (-32602), Py.str "Invalid params"]

def ONLY_POST_ALLOWED : List Py := [Py.int 0, Py.str "Only POST allowed"]

def BAD_CONTENT_TYPE : List Py := [Py.int 1, Py.str "Bad or missing Content-Type header"]

def BAD_ACCEPT : List Py := [Py.int 2, Py.str "Bad Accept header"]

def SERVER_ERROR : List Py := [Py.int (-32000), Py.str "Server error"]

/-! HTTP status lines. -/

def HTTP_OK : String := "200 OK"

def HTTP_NO_CONTENT : String := "204 No Content"

def HTTP_BAD_REQUEST : String := "400 Bad Request"

def HTTP_METHOD_NOT_ALLOWED : String := "405 Method Not Allowed"

def HTTP_NOT_ACCEPTABLE : String := "406 Not Acceptable"

def HTTP_UNSUPPORTED_MEDIA : String := "415 Unsupported Media Type"

/-- `dict_only_contains(d, keys)`: every key of `d` belongs to `keys`. -/
def dict_only_contains (d : List (String × Py)) (keys : List String) : Bool :=
  d.all (fun kv => keys.contains kv.1)

/-- `inspect.getargspec` result as used by this module: the declared argument
names and the tuple of default values (`None` when there are no defaults). -/
structure ArgSpec where
  args : List String
  defaults : Option (List Py)

/-- `len(args.defaults) if args.defaults is not None else 0`. -/
def ArgSpec.defaultsLen (a : ArgSpec) : Nat :=
  match a.defaults with
  | some ds => ds.length
  | Option.none => 0

/-- Arguments of one handler invocation. The handler is called as
`method(self, ip_addr, **params)` or `method(self, ip_addr, *params)`; the
leading `self` argument is the (fixed) server object and is left implicit in
this record, which keeps the second implicit leading value `ip_addr` and the
supplied parameters. -/
inductive CallArgs where
  | positional (ip_addr : Py) (params : List Py)
  | keyword (ip_addr : Py) (params : List (String × Py))

/-- A registered handler object: its own argspec (inspected by `__init__`),
its `original_func` attribute when present (inspected by `process_request`;
an absent attribute raises `AttributeError` there), and its behaviour as a
function from invocation arguments to the returned Python value. -/
structure Method where
  argspec : ArgSpec
  original_func : Option ArgSpec
  run : CallArgs → Py

/-- Server state set up by `__init__`: the methods dict and the
`allowed_origins` constructor argument. -/
structure JsonRpcServer where
  methods : List (String × Method)
  allowed_origins : Option Py

/-- The only non-trivial validation in `__init__` beyond typing: every handler
must be callable (by typing here) and declare at least one parameter. The
`original_func` attribute is not inspected at construction time. -/
def init_checks_pass (methods : List (String × Method)) : Bool :=
  methods.all (fun km => decide (1 ≤ km.2.argspec.args.length))

/-- WSGI environment slice read by `process_call`. `body` is the result of
`json.loads(env['wsgi.input'].read().decode('utf-8'))`: `some v` when both
decoding and parsing succeed, `Option.none` for the `ValueError` the code
catches. -/
structure Env where
  request_method : String
  content_type : Option String
  http_accept : Option String
  remote_addr : Option String
  body : Option Py

/-- `ipaddress.ip_address(env['REMOTE_ADDR']).packed` when a remote address is
present, else `None`; the packed binary form is modelled opaquely. -/
def ip_addr_of (env : Env) : Py :=
  match env.remote_addr with
  | some a => Py.bytes a
  | Option.none => Py.none

/-- `return_result(result, req_id, err)`. -/
def return_result (result : Py) (req_id : Py) (err : Bool) : Py :=
  Py.dict [("jsonrpc", Py.str "2.0"), ((if err then "error" else "result"), result), ("id", req_id)]

/-- `geterrdata(error)`: reads `error[0]` and `error[1]`, so a tuple with
fewer than two elements raises `IndexError`. -/
def geterrdata : List Py → Except PyExc Py
  | e0 :: e1 :: _ => Except.ok (Py.dict [("code", e0), ("message", e1)])
  | _ => Except.error PyExc.indexError

/-- `return_error(error, req_id)`. -/
def return_error (error : List Py) (req_id : Py) : Except PyExc Py :=
  (geterrdata error).map (fun d => return_result d req_id true)

/-- Python `str.split(sep)` for a one-character separator, at the character
level: split at every occurrence, keeping empty segments (so the result has
one more segment than there are separators). -/
def splitOnChar (c : Char) : List Char → List (List Char)
  | [] => [[]]
  | x :: xs =>
      if x = c then [] :: splitOnChar c xs
      else
        match splitOnChar c xs with
        | h :: t => (x :: h) :: t
        | [] => [[x]]

/-- The whitespace characters removed by Python `str.strip()` (the ASCII
ones, which are the only ones that matter for an HTTP header value). -/
def is_py_space (c : Char) : Bool :=
  c = ' ' || c = '\t' || c = '\n' || c = '\r' || c.toNat = 11 || c.toNat = 12

/-- Python `str.strip()` at the character level. -/
def pyStrip (cs : List Char) : List Char :=
  ((cs.dropWhile is_py_space).reverse.dropWhile is_py_space).reverse

/-- `not_valid_content_type(content_type)`: split on `;`, allow at most one
parameter, which must start with `charset=` after stripping, and require the
first segment to be one of the three accepted media types exactly.
String splitting, stripping and slicing are carried out on the character
lists underlying the strings. -/
def not_valid_content_type (content_type : String) : Bool :=
  let parts := splitOnChar ';' content_type.data
  if 2 < parts.length then true
  else if 1 < parts.length ∧ (pyStrip (parts.getD 1 [])).take 8 ≠ "charset=".data then true
  else !((["application/json-rpc", "application/json", "application/jsonrequest"].map
    String.data).contains (parts.getD 0 []))

/-- `is_valid_request(request)`: structural JSON-RPC 2.0 envelope check.
Note `type(x) is int` is false for Python booleans, so a boolean id is
invalid, and a `null` id counts as present-and-invalid. -/
def is_valid_request (request : Py) : Bool :=
  match request with
  | .dict entries =>
      dict_only_contains entries ["jsonrpc", "method", "params", "id"]
        && (match List.lookup "jsonrpc" entries with
            | some (.str s) => s == "2.0"
            | _ => false)
        && (match List.lookup "method" entries with
            | some v => v.isStr
            | Option.none => false)
        && (match List.lookup "id" entries with
            | some v => v.isStr || v.isInt
            | Option.none => true)
        && (match List.lookup "params" entries with
            | some v => v.isList || v.isDict
            | Option.none => true)
  | _ => false

/-- `req_args` in `process_request`:
`len(args.args) - (len(args.defaults) or 0) - 2`, over the integers. -/
def req_args_count (args : ArgSpec) : Int :=
  (args.args.length : Int) - (args.defaultsLen : Int) - 2

/-- The Python slice `args.args[2 : req_args + 2]`: the declared names of the
required (non-default) parameters after the two implicit leading ones. The
slice stop `req_args + 2` equals `len(args.args) - len(defaults)`, which is
non-negative for every genuine argspec. -/
def required_names (args : ArgSpec) : List String :=
  (args.args.take (args.args.length - args.defaultsLen)).drop 2

/-- The parameter-validity logic of `process_request` (lines 138-154): the
length pre-check applies to both shapes; for a dict, additionally every
supplied key must be declared and every required name must be supplied. -/
def invalid_params_check (args : ArgSpec) (params : Py) : Bool :=
  let invalid0 := decide ((pyLen params : Int) < req_args_count args)
  match params with
  | .dict entries =>
      invalid0
        || entries.any (fun kv => !(args.args.contains kv.1))
        || (required_names args).any (fun x => !(entries.any (fun kv => kv.1 == x)))
  | _ => invalid0

/-- `name not in self.methods`: a non-string value is never a key of the
string-keyed methods dict. -/
def JsonRpcServer.lookup_method (self : JsonRpcServer) (name : Py) : Option Method :=
  match name with
  | .str s => List.lookup s self.methods
  | _ => Option.none

/-- How the handler is invoked: `method(self, ip_addr, **params)` when params
is a dict, `method(self, ip_addr, *params)` otherwise (params is then a
validated list; the final case is unreachable). -/
def invoke_args (ip_addr : Py) (params : Py) : CallArgs :=
  match params with
  | .dict p => CallArgs.keyword ip_addr p
  | .list p => CallArgs.positional ip_addr p
  | _ => CallArgs.positional ip_addr []

/-- `process_request(request, ip_addr)`: validate the envelope, look up the
method, validate parameters against `method.original_func`, invoke the
handler, and build the response envelope; a `None` id suppresses every
response. The returned pair is (handler-invocation trace, optional response). -/
def JsonRpcServer.process_request (self : JsonRpcServer) (request : Py) (ip_addr : Py) :
    Except PyExc (List CallArgs × Option Py) :=
  if is_valid_request request = false then
    (return_error INVALID_REQUEST Py.none).map (fun e => ([], some e))
  else
    match request with
    | .dict entries =>
        let name := (List.lookup "method" entries).getD Py.none
        let params := (List.lookup "params" entries).getD (Py.list [])
        let req_id := (List.lookup "id" entries).getD Py.none
        match self.lookup_method name with
        | Option.none =>
            if req_id.isNone then Except.ok ([], Option.none)
            else (return_error METHOD_NOT_FOUND req_id).map (fun e => ([], some e))
        | some method =>
            match method.original_func with
            | Option.none => Except.error (PyExc.attributeError "original_func")
            | some args =>
                if invalid_params_check args params then
                  if req_id.isNone then Except.ok ([], Option.none)
                  else (return_error INVALID_PARAMS req_id).map (fun e => ([], some e))
                else
                  let call := invoke_args ip_addr params
                  let res := method.run call
                  if req_id.isNone then Except.ok ([call], Option.none)
                  else
                    match res with
                    | .tuple t => (return_error t req_id).map (fun e => ([call], some e))
                    | _ => Except.ok ([call], some (return_result res req_id false))
    | _ =>
        -- unreachable: a request that passes is_valid_request is a dict
        Except.ok ([], Option.none)

/-- The loop body of `process_request_list`: process each element in order,
appending each non-`None` response; handler invocations accumulate in order. -/
def JsonRpcServer.process_request_fold (self : JsonRpcServer) (ip_addr : Py) :
    List Py → Except PyExc (List CallArgs × List Py)
  | [] => Except.ok ([], [])
  | r :: rs =>
      match self.process_request r ip_addr with
      | Except.error e => Except.error e
      | Except.ok (tr, o) =>
          match self.process_request_fold ip_addr rs with
          | Except.error e => Except.error e
          | Except.ok (trs, os) =>
              Except.ok (tr ++ trs,
                match o with
                | some x => x :: os
                | Option.none => os)

/-- `process_request_list(request, ip_addr)`: an empty response list becomes
`None` ("no content"), otherwise the list of responses is returned. -/
def JsonRpcServer.process_request_list (self : JsonRpcServer) (request : List Py) (ip_addr : Py) :
    Except PyExc (List CallArgs × Option (List Py)) :=
  match self.process_request_fold ip_addr request with
  | Except.error e => Except.error e
  | Except.ok (tr, results) =>
      if results.length = 0 then Except.ok (tr, Option.none)
      else Except.ok (tr, some results)

/-- `extra_checks(env, start_response, ip_addr)` of the base class: always
`None` (a pre-dispatch hook that subclasses outside this repository may
override). -/
def extra_checks (_env : Env) (_ip_addr : Py) : Option Py :=
  Option.none

/-- The headers list built at the top of `process_call`. -/
def base_headers : List (String × String) := [("Content-Type", "application/json-rpc")]

/-- Outcome of one `process_call`: the `start_response(status, headers)` call
made, if any (the extra-checks short-circuit path makes none itself), the
value returned to `__call__`, and the trace of handler invocations. -/
structure CallOutcome where
  started : Option (String × List (String × String))
  result : Option Py
  trace : List CallArgs

/-- `process_call(env, start_response)`: the HTTP transport state machine.
When `allowed_origins` is configured, the code reads the never-assigned
attribute `allowed_origin` (`__init__` stores `allowed_origins`), raising
`AttributeError` before any other step. -/
def JsonRpcServer.process_call (self : JsonRpcServer) (env : Env) : Except PyExc CallOutcome :=
  match self.allowed_origins with
  | some _ => Except.error (PyExc.attributeError "allowed_origin")
  | Option.none =>
      let headers := base_headers
      if env.request_method != "POST" then
        let headers := headers ++ [("Allow", "POST")]
        if env.request_method == "OPTIONS" then
          Except.ok { started := some (HTTP_OK, headers ++ [("Access-Control-Allow-Headers", "Content-Type, Accept, Content-Length, Host, Origin, User-Agent, Referer")]), result := Option.none, trace := [] }
        else
          (return_error ONLY_POST_ALLOWED Py.none).map (fun e =>
            { started := some (HTTP_METHOD_NOT_ALLOWED, headers), result := some e, trace := [] })
      else
        if (match env.content_type with
            | Option.none => true
            | some ct => not_valid_content_type ct) then
          (return_error BAD_CONTENT_TYPE Py.none).map (fun e =>
            { started := some (HTTP_UNSUPPORTED_MEDIA, headers), result := some e, trace := [] })
        else
          if (match env.http_accept with
              | some a => not_valid_content_type a
              | Option.none => false) then
            (return_error BAD_ACCEPT Py.none).map (fun e =>
              { started := some (HTTP_NOT_ACCEPTABLE, headers), result := some e, trace := [] })
          else
            let ip_addr := ip_addr_of env
            match extra_checks env ip_addr with
            | some resp => Except.ok { started := Option.none, result := some resp, trace := [] }
            | Option.none =>
                match env.body with
                | Option.none =>
                    (return_error PARSE_ERROR Py.none).map (fun e =>
                      { started := some (HTTP_BAD_REQUEST, headers), result := some e, trace := [] })
                | some request =>
                    let dispatched :=
                      match request with
                      | Py.list reqs =>
                          (self.process_request_list reqs ip_addr).map (fun p => (p.1, p.2.map Py.list))
                      | _ => self.process_request request ip_addr
                    match dispatched with
                    | Except.error e => Except.error e
                    | Except.ok (tr, Option.none) =>
                        Except.ok { started := some (HTTP_NO_CONTENT, []), result := Option.none, trace := tr }
                    | Except.ok (tr, some r) =>
                        Except.ok { started := some (HTTP_OK, headers), result := some r, trace := tr }

/-- The body emitted by `__call__`: `b""` for a `None` result, otherwise the
JSON serialization of the result (kept symbolic: `json.dumps` is external). -/
inductive WsgiBody where
  | empty
  | jsonOf (result : Py)

/-- `__call__(env, start_response)`: run `process_call` and pick the body. -/
def JsonRpcServer.wsgi_call (self : JsonRpcServer) (env : Env) :
    Except PyExc (CallOutcome × WsgiBody) :=
  (self.process_call env).map (fun o =>
    (o, match o.result with
        | Option.none => WsgiBody.empty
        | some r => WsgiBody.jsonOf r))

/-! Concrete fixtures used by witnesses. -/

/-- A server with no registered methods and no CORS configuration. -/
def emptyServer : JsonRpcServer := { methods := [], allowed_origins := Option.none }

/-- A handler object whose own argspec passes registration but which carries
no `original_func` attribute. -/
def noOrigMethod : Method :=
  { argspec := { args := ["server"], defaults := Option.none }
    original_func := Option.none
    run := fun _ => Py.none }

/-- A server registering `noOrigMethod` under the name `m`. -/
def noOrigServer : JsonRpcServer :=
  { methods := [("m", noOrigMethod)], allowed_origins := Option.none }

/-- A structurally valid request for method `m` with integer id 1 and no
params. -/
def reqForM : Py :=
  Py.dict [("jsonrpc", Py.str "2.0"), ("method", Py.str "m"), ("id", Py.int 1)]

/-- C1: the claim says a server configured with a non-None allowed-origins
value attaches the Access-Control-Allow-Origin header and completes normally.
The code instead raises AttributeError on every call: `__init__` stores the
configuration in `allowed_origins` while `process_call` reads the
never-assigned attribute `allowed_origin`. -/
theorem C1_cors_attribute_error (methods : List (String × Method)) (origins : Option Py)
    (v : Py) (env : Env) (h : origins = some v) :
    JsonRpcServer.process_call { methods := methods, allowed_origins := origins } env =
      Except.error (PyExc.attributeError "allowed_origin") := by
  subst h
  rfl

/-- Witness for C1: a concrete server configured with allowed origins fails on
a concrete call. -/
theorem C1_cors_attribute_error_witness :
    JsonRpcServer.process_call { methods := [], allowed_origins := some (Py.str "*") }
      { request_method := "POST", content_type := some "application/json",
        http_accept := Option.none, remote_addr := Option.none,
        body := some (Py.dict []) } =
      Except.error (PyExc.attributeError "allowed_origin") :=
  C1_cors_attribute_error [] (some (Py.str "*")) (Py.str "*")
    { request_method := "POST", content_type := some "application/json",
      http_accept := Option.none, remote_addr := Option.none,
      body := some (Py.dict []) } rfl

/-- C2: every candidate request that fails envelope validation produces an
InvalidRequest (-32600) error envelope whose id field is null, with no handler
invocation — in particular also when the invalid envelope had no id field. -/
theorem C2_invalid_envelope_null_id (srv : JsonRpcServer) (request : Py) (ip_addr : Py)
    (h : is_valid_request request = false) :
    srv.process_request request ip_addr =
      Except.ok ([], some (return_result
        (Py.dict [("code", Py.int (-32600)), ("message", Py.str "Invalid Request")])
        Py.none true)) := by
  unfold JsonRpcServer.process_request
  simp [h, return_error, geterrdata, INVALID_REQUEST, Except.map]

/-- Witness for C2: a request with no id field (and no jsonrpc field, hence
invalid) still yields the InvalidRequest envelope with id null. -/
theorem C2_invalid_envelope_null_id_witness :
    is_valid_request (Py.dict [("method", Py.str "m")]) = false ∧
    emptyServer.process_request (Py.dict [("method", Py.str "m")]) Py.none =
      Except.ok ([], some (return_result
        (Py.dict [("code", Py.int (-32600)), ("message", Py.str "Invalid Request")])
        Py.none true)) :=
  ⟨rfl, C2_invalid_envelope_null_id emptyServer (Py.dict [("method", Py.str "m")]) Py.none rfl⟩

/-- C10: parameter binding reads `method.original_func` while registration
only validates the handler object itself; a registered handler lacking that
attribute makes every valid request naming it raise an uncaught
AttributeError inside `process_request` instead of any structured response. -/
theorem C10_missing_original_func_attribute_error (srv : JsonRpcServer)
    (entries : List (String × Py)) (ip_addr : Py) (m : Method)
    (hreg : init_checks_pass srv.methods = true)
    (hv : is_valid_request (Py.dict entries) = true)
    (hm : srv.lookup_method ((List.lookup "method" entries).getD Py.none) = some m)
    (hof : m.original_func = Option.none) :
    srv.process_request (Py.dict entries) ip_addr =
      Except.error (PyExc.attributeError "original_func") := by
  unfold JsonRpcServer.process_request
  simp [hv, hm, hof]

/-- Witness for C10: a concrete server passing the registration checks whose
handler lacks `original_func` crashes on a concrete valid request. -/
theorem C10_missing_original_func_attribute_error_witness :
    init_checks_pass noOrigServer.methods = true ∧
    is_valid_request reqForM = true ∧
    noOrigServer.process_request reqForM Py.none =
      Except.error (PyExc.attributeError "original_func") :=
  ⟨rfl, rfl,
    C10_missing_original_func_attribute_error noOrigServer
      [("jsonrpc", Py.str "2.0"), ("method", Py.str "m"), ("id", Py.int 1)]
      Py.none noOrigMethod rfl rfl rfl rfl⟩

/-- A structurally valid request has an id of string or integer type whenever
the id key is present, so the extracted id is never Python `None`. -/
theorem valid_id_not_none {entries : List (String × Py)} {rid : Py}
    (hv : is_valid_request (Py.dict entries) = true)
    (hid : List.lookup "id" entries = some rid) : rid.isNone = false := by
  simp only [is_valid_request, hid, Bool.and_eq_true] at hv
  obtain ⟨⟨⟨⟨-, -⟩, -⟩, hD⟩, -⟩ := hv
  cases rid <;> simp_all [Py.isStr, Py.isInt, Py.isNone]

/-- C3: a structurally valid request without an id (a notification) never
produces a response envelope — unknown method, invalid params, handler
success and handler application-level failure alike — and on the success
path the handler is still invoked (the invocation appears in the trace).
The hypothesis `hof` restricts to handlers that carry the `original_func`
attribute, as every handler produced by the intended registration style
does (its absence is the separate uncaught-crash behaviour of C10). -/
theorem C3_notification_no_response (srv : JsonRpcServer) (entries : List (String × Py))
    (ip_addr : Py)
    (hv : is_valid_request (Py.dict entries) = true)
    (hid : List.lookup "id" entries = Option.none)
    (hof : ∀ s mth, List.lookup s srv.methods = some mth → mth.original_func.isSome = true) :
    ∃ tr, srv.process_request (Py.dict entries) ip_addr = Except.ok (tr, Option.none) ∧
      (∀ mth args, srv.lookup_method ((List.lookup "method" entries).getD Py.none) = some mth →
        mth.original_func = some args →
        invalid_params_check args ((List.lookup "params" entries).getD (Py.list [])) = false →
        tr = [invoke_args ip_addr ((List.lookup "params" entries).getD (Py.list []))]) := by
  cases hm : srv.lookup_method ((List.lookup "method" entries).getD Py.none) with
  | none =>
      refine ⟨[], ?_, ?_⟩
      · unfold JsonRpcServer.process_request
        simp [hv, hid, hm, Py.isNone]
      · intro mth args hm' _ _
        cases hm'
  | some mth =>
      have hiso : mth.original_func.isSome = true := by
        have hms : ∃ s, List.lookup s srv.methods = some mth := by
          cases hname : ((List.lookup "method" entries).getD Py.none) <;>
            simp [JsonRpcServer.lookup_method, hname] at hm
          exact ⟨_, hm⟩
        obtain ⟨s, hs⟩ := hms
        exact hof s mth hs
      obtain ⟨args, hargs⟩ := Option.isSome_iff_exists.mp hiso
      cases hinv : invalid_params_check args ((List.lookup "params" entries).getD (Py.list [])) with
      | true =>
          refine ⟨[], ?_, ?_⟩
          · unfold JsonRpcServer.process_request
            simp [hv, hid, hm, hargs, hinv, Py.isNone]
          · intro mth' args' hm' hargs' hinv'
            cases hm'
            rw [hargs] at hargs'
            cases hargs'
            simp [hinv] at hinv'
      | false =>
          refine ⟨[invoke_args ip_addr ((List.lookup "params" entries).getD (Py.list []))], ?_, ?_⟩
          · unfold JsonRpcServer.process_request
            simp [hv, hid, hm, hargs, hinv, Py.isNone]
          · intro _ _ _ _ _
            rfl

/-- Witness for C3: a concrete notification for a registered handler yields
no response while the handler invocation is recorded. -/
theorem C3_notification_no_response_witness :
    is_valid_request (Py.dict [("jsonrpc", Py.str "2.0"), ("method", Py.str "nop")]) = true ∧
    ∃ tr,
      JsonRpcServer.process_request
        { methods := [("nop",
            { argspec := { args := ["server", "addr"], defaults := Option.none }
              original_func := some { args := ["server", "addr"], defaults := Option.none }
              run := fun _ => Py.int 42 })], allowed_origins := Option.none }
        (Py.dict [("jsonrpc", Py.str "2.0"), ("method", Py.str "nop")]) Py.none =
        Except.ok (tr, Option.none) ∧
      (∀ mth args,
        JsonRpcServer.lookup_method
          { methods := [("nop",
              { argspec := { args := ["server", "addr"], defaults := Option.none }
                original_func := some { args := ["server", "addr"], defaults := Option.none }
                run := fun _ => Py.int 42 })], allowed_origins := Option.none }
          ((List.lookup "method" [("jsonrpc", Py.str "2.0"), ("method", Py.str "nop")]).getD Py.none) = some mth →
        mth.original_func = some args →
        invalid_params_check args ((List.lookup "params" [("jsonrpc", Py.str "2.0"), ("method", Py.str "nop")]).getD (Py.list [])) = false →
        tr = [invoke_args Py.none ((List.lookup "params" [("jsonrpc", Py.str "2.0"), ("method", Py.str "nop")]).getD (Py.list []))]) :=
  ⟨rfl,
    C3_notification_no_response
      { methods := [("nop",
          { argspec := { args := ["server", "addr"], defaults := Option.none }
            original_func := some { args := ["server", "addr"], defaults := Option.none }
            run := fun _ => Py.int 42 })], allowed_origins := Option.none }
      [("jsonrpc", Py.str "2.0"), ("method", Py.str "nop")] Py.none rfl rfl
      (by intro s mth hs
          simp [List.lookup] at hs
          split at hs
          · cases hs
            rfl
          · cases hs)⟩

/-! Fixtures for the parameter-binding and dispatcher claims: an `add`
handler declared as `add(server, addr, a, b)`. -/

/-- Argspec of `add(server, addr, a, b)`: four declared names, no defaults. -/
def addSpec : ArgSpec := { args := ["server", "addr", "a", "b"], defaults := Option.none }

/-- The registered `add` handler: adds its two real parameters. -/
def addMethod : Method :=
  { argspec := addSpec
    original_func := some addSpec
    run := fun c =>
      match c with
      | CallArgs.positional _ [Py.int a, Py.int b] => Py.int (a + b)
      | CallArgs.keyword _ [("a", Py.int a), ("b", Py.int b)] => Py.int (a + b)
      | _ => Py.none }

/-- A server registering `add`. -/
def addServer : JsonRpcServer := { methods := [("add", addMethod)], allowed_origins := Option.none }

/-- C5: for a valid request with an id and positional (sequence) params,
binding fails with InvalidParams (-32602) exactly when the sequence is
shorter than `required_count` = declared-parameters-without-defaults minus
the two implicit leading ones; otherwise the handler is invoked (so longer
sequences are not rejected by this check). -/
theorem C5_positional_arity (srv : JsonRpcServer) (entries : List (String × Py))
    (ip_addr : Py) (xs : List Py) (rid : Py) (mth : Method) (args : ArgSpec)
    (hv : is_valid_request (Py.dict entries) = true)
    (hid : List.lookup "id" entries = some rid)
    (hparams : List.lookup "params" entries = some (Py.list xs))
    (hm : srv.lookup_method ((List.lookup "method" entries).getD Py.none) = some mth)
    (hof : mth.original_func = some args) :
    (((xs.length : Int) < req_args_count args →
      srv.process_request (Py.dict entries) ip_addr =
        Except.ok ([], some (return_result
          (Py.dict [("code", Py.int (-32602)), ("message", Py.str "Invalid params")])
          rid true)))) ∧
    ((¬ ((xs.length : Int) < req_args_count args)) →
      srv.process_request (Py.dict entries) ip_addr =
        (match mth.run (CallArgs.positional ip_addr xs) with
         | Py.tuple t => (return_error t rid).map (fun e => ([CallArgs.positional ip_addr xs], some e))
         | res => Except.ok ([CallArgs.positional ip_addr xs], some (return_result res rid false)))) := by
  have hidn : rid.isNone = false := valid_id_not_none hv hid
  constructor
  · intro hlt
    have hinv : invalid_params_check args (Py.list xs) = true := by
      simp [invalid_params_check, pyLen]
      exact hlt
    unfold JsonRpcServer.process_request
    simp [hv, hid, hparams, hm, hof, hinv, hidn, return_error, geterrdata, INVALID_PARAMS,
      Except.map]
  · intro hge
    have hinv : invalid_params_check args (Py.list xs) = false := by
      simp [invalid_params_check, pyLen]
      exact le_of_not_lt hge
    unfold JsonRpcServer.process_request
    simp only [hv, hid, hparams, hm, hof, hinv, hidn, invoke_args]
    cases hres : mth.run (CallArgs.positional ip_addr xs) <;>
      simp [hv, hid, hparams, hm, hof, hinv, hidn, invoke_args, hres]

/-- Witness for C5: `add` requires two positional values; supplying one value
yields the InvalidParams envelope under the request id. -/
theorem C5_positional_arity_witness :
    addServer.process_request
      (Py.dict [("jsonrpc", Py.str "2.0"), ("method", Py.str "add"),
        ("params", Py.list [Py.int 2]), ("id", Py.int 1)]) Py.none =
      Except.ok ([], some (return_result
        (Py.dict [("code", Py.int (-32602)), ("message", Py.str "Invalid params")])
        (Py.int 1) true)) :=
  (C5_positional_arity addServer
      [("jsonrpc", Py.str "2.0"), ("method", Py.str "add"),
        ("params", Py.list [Py.int 2]), ("id", Py.int 1)]
      Py.none [Py.int 2] (Py.int 1) addMethod addSpec rfl rfl rfl rfl rfl).1 (by decide)

/-- The required names form a sublist of the declared names. -/
theorem required_names_sublist (args : ArgSpec) :
    (required_names args).Sublist args.args :=
  (List.drop_sublist 2 _).trans (List.take_sublist _ _)

/-- Length of the required-names slice for a genuine argspec (defaults never
outnumber declared parameters). -/
theorem required_names_length {args : ArgSpec} (hdl : args.defaultsLen ≤ args.args.length) :
    (required_names args).length = args.args.length - args.defaultsLen - 2 := by
  simp only [required_names, List.length_drop, List.length_take]
  omega

/-- A duplicate-free list of keys that all occur among the keys of an
association list is no longer than that association list. -/
theorem nodup_length_le_keys {l : List String} {ps : List (String × Py)}
    (hnd : l.Nodup)
    (hall : ∀ x ∈ l, ∃ kv ∈ ps, kv.1 = x) :
    l.length ≤ ps.length := by
  classical
  have hsub : l.toFinset ⊆ (ps.map Prod.fst).toFinset := by
    intro x hx
    rw [List.mem_toFinset] at hx ⊢
    obtain ⟨kv, hkv, he⟩ := hall x hx
    exact List.mem_map.mpr ⟨kv, hkv, he⟩
  have h1 : l.toFinset.card = l.length := List.toFinset_card_of_nodup hnd
  have h2 : (ps.map Prod.fst).toFinset.card ≤ (ps.map Prod.fst).length :=
    List.toFinset_card_le _
  have h3 : (ps.map Prod.fst).length = ps.length := List.length_map _ _
  have h4 := Finset.card_le_card hsub
  omega

/-- For a dict of params with a genuine, duplicate-free argspec, the code's
parameter check (which also carries a length pre-check) is equivalent to the
two name-based conditions alone: the length pre-check is subsumed, because a
dict containing every required name already has at least `required_count`
entries. -/
theorem invalid_params_check_dict {args : ArgSpec} {ps : List (String × Py)}
    (hnd : args.args.Nodup) (hdl : args.defaultsLen ≤ args.args.length) :
    invalid_params_check args (Py.dict ps) =
      (ps.any (fun kv => !(args.args.contains kv.1))
        || (required_names args).any (fun x => !(ps.any (fun kv => kv.1 == x)))) := by
  classical
  have hred : invalid_params_check args (Py.dict ps) =
      (decide ((ps.length : Int) < req_args_count args)
        || ps.any (fun kv => !(args.args.contains kv.1))
        || (required_names args).any (fun x => !(ps.any (fun kv => kv.1 == x)))) := rfl
  rw [hred]
  cases hA : ps.any (fun kv => !(args.args.contains kv.1)) with
  | true => simp
  | false =>
      cases hB : (required_names args).any (fun x => !(ps.any (fun kv => kv.1 == x))) with
      | true => simp
      | false =>
          have hall : ∀ x ∈ required_names args, ∃ kv ∈ ps, kv.1 = x := by
            intro x hx
            have hx' := List.any_eq_false.mp hB x hx
            have hx2 : ps.any (fun kv => kv.1 == x) = true := by
              cases h : ps.any (fun kv => kv.1 == x) with
              | true => rfl
              | false => exact absurd (by simp [h]) hx'
            obtain ⟨kv, hkv, he⟩ := List.any_eq_true.mp hx2
            exact ⟨kv, hkv, eq_of_beq he⟩
          have hlen : (required_names args).length ≤ ps.length :=
            nodup_length_le_keys (hnd.sublist (required_names_sublist args)) hall
          have hrl := required_names_length hdl
          have hnl : ¬ ((ps.length : Int) < req_args_count args) := by
            unfold req_args_count
            omega
          rw [decide_eq_false hnl]
          simp

/-- C6: for a valid request with an id and mapping params, binding fails
with InvalidParams (-32602) exactly when some supplied key is not among the
declared parameter names or some required (non-default) declared name is
absent from the supplied keys; otherwise the handler is invoked with the
bound keyword parameters plus the implicit leading caller-address value (and,
implicitly, the server object itself as first argument). The `Nodup` and
defaults-length hypotheses hold for every genuine Python function signature
and dict. -/
theorem C6_named_params_binding (srv : JsonRpcServer) (entries : List (String × Py))
    (ip_addr : Py) (ps : List (String × Py)) (rid : Py) (mth : Method) (args : ArgSpec)
    (hv : is_valid_request (Py.dict entries) = true)
    (hid : List.lookup "id" entries = some rid)
    (hparams : List.lookup "params" entries = some (Py.dict ps))
    (hm : srv.lookup_method ((List.lookup "method" entries).getD Py.none) = some mth)
    (hof : mth.original_func = some args)
    (hnd : args.args.Nodup)
    (hdl : args.defaultsLen ≤ args.args.length) :
    (((ps.any (fun kv => !(args.args.contains kv.1))
        || (required_names args).any (fun x => !(ps.any (fun kv => kv.1 == x)))) = true) →
      srv.process_request (Py.dict entries) ip_addr =
        Except.ok ([], some (return_result
          (Py.dict [("code", Py.int (-32602)), ("message", Py.str "Invalid params")])
          rid true))) ∧
    (((ps.any (fun kv => !(args.args.contains kv.1))
        || (required_names args).any (fun x => !(ps.any (fun kv => kv.1 == x)))) = false) →
      srv.process_request (Py.dict entries) ip_addr =
        (match mth.run (CallArgs.keyword ip_addr ps) with
         | Py.tuple t => (return_error t rid).map (fun e => ([CallArgs.keyword ip_addr ps], some e))
         | res => Except.ok ([CallArgs.keyword ip_addr ps], some (return_result res rid false)))) := by
  have hidn : rid.isNone = false := valid_id_not_none hv hid
  have heq : invalid_params_check args (Py.dict ps) =
      (ps.any (fun kv => !(args.args.contains kv.1))
        || (required_names args).any (fun x => !(ps.any (fun kv => kv.1 == x)))) :=
    invalid_params_check_dict hnd hdl
  constructor
  · intro hbad
    have hinv : invalid_params_check args (Py.dict ps) = true := by rw [heq, hbad]
    unfold JsonRpcServer.process_request
    simp [hv, hid, hparams, hm, hof, hinv, hidn, return_error, geterrdata, INVALID_PARAMS,
      Except.map]
  · intro hgood
    have hinv : invalid_params_check args (Py.dict ps) = false := by rw [heq, hgood]
    unfold JsonRpcServer.process_request
    simp only [hv, hid, hparams, hm, hof, hinv, hidn, invoke_args]
    cases hres : mth.run (CallArgs.keyword ip_addr ps) <;>
      simp [hv, hid, hparams, hm, hof, hinv, hidn, invoke_args, hres]

/-- Witness for C6: calling `add` with named params a=2, b=3 binds and the
handler runs, yielding result 5 under id 7. -/
theorem C6_named_params_binding_witness :
    addServer.process_request
      (Py.dict [("jsonrpc", Py.str "2.0"), ("method", Py.str "add"),
        ("params", Py.dict [("a", Py.int 2), ("b", Py.int 3)]), ("id", Py.int 7)]) Py.none =
      Except.ok ([CallArgs.keyword Py.none [("a", Py.int 2), ("b", Py.int 3)]],
        some (return_result (Py.int 5) (Py.int 7) false)) :=
  ((C6_named_params_binding addServer
      [("jsonrpc", Py.str "2.0"), ("method", Py.str "add"),
        ("params", Py.dict [("a", Py.int 2), ("b", Py.int 3)]), ("id", Py.int 7)]
      Py.none [("a", Py.int 2), ("b", Py.int 3)] (Py.int 7) addMethod addSpec
      rfl rfl rfl rfl rfl (by decide) (by decide)).2 rfl).trans rfl

/-! Fixtures for the handler-return-interpretation claim: a handler whose
return value is a 3-element tuple. -/

/-- Argspec of a handler `m(server, addr)` with no real parameters. -/
def tripleSpec : ArgSpec := { args := ["server", "addr"], defaults := Option.none }

/-- A handler returning the 3-element tuple `(5, "a", 7)` — not a 2-element
(code, message) pair. -/
def tripleMethod : Method :=
  { argspec := tripleSpec
    original_func := some tripleSpec
    run := fun _ => Py.tuple [Py.int 5, Py.str "a", Py.int 7] }

/-- A server registering `tripleMethod` under the name `m`. -/
def tripleServer : JsonRpcServer :=
  { methods := [("m", tripleMethod)], allowed_origins := Option.none }

/-- C7 counterexample: the claim says only a 2-element (code, message) pair
becomes an error envelope and every other return value becomes the `result`
field of a success envelope. Here the handler returns the 3-element tuple
`(5, "a", 7)` — not a 2-element pair — yet the code (`type(res) is tuple`)
emits an error envelope with code 5 and message "a", and the emitted envelope
has no `result` field at all. -/
theorem C7_counterexample_three_tuple :
    tripleMethod.run (CallArgs.positional Py.none []) = Py.tuple [Py.int 5, Py.str "a", Py.int 7] ∧
    tripleServer.process_request reqForM Py.none =
      Except.ok ([CallArgs.positional Py.none []],
        some (Py.dict [("jsonrpc", Py.str "2.0"),
          ("error", Py.dict [("code", Py.int 5), ("message", Py.str "a")]),
          ("id", Py.int 1)])) ∧
    List.lookup "result"
        [("jsonrpc", Py.str "2.0"),
          ("error", Py.dict [("code", Py.int 5), ("message", Py.str "a")]),
          ("id", Py.int 1)] = (Option.none : Option Py) :=
  ⟨rfl, rfl, rfl⟩

/-- C7 amended: for a dispatched handler invocation on a request with an id,
the response is an error envelope iff the returned value is a tuple: a tuple
with at least two elements yields an error envelope carrying its first two
elements as code and message (further elements are ignored), a tuple with
fewer than two elements raises an uncaught IndexError, and any non-tuple
value becomes the `result` field of a success envelope; each emitted envelope
carries the request's id and exactly one of result/error. -/
theorem C7_amended_tuple_return (srv : JsonRpcServer) (entries : List (String × Py))
    (ip_addr : Py) (rid : Py) (mth : Method) (args : ArgSpec)
    (hv : is_valid_request (Py.dict entries) = true)
    (hid : List.lookup "id" entries = some rid)
    (hm : srv.lookup_method ((List.lookup "method" entries).getD Py.none) = some mth)
    (hof : mth.original_func = some args)
    (hinv : invalid_params_check args ((List.lookup "params" entries).getD (Py.list [])) = false) :
    (∀ e0 e1 rest,
      mth.run (invoke_args ip_addr ((List.lookup "params" entries).getD (Py.list []))) =
          Py.tuple (e0 :: e1 :: rest) →
      srv.process_request (Py.dict entries) ip_addr =
        Except.ok ([invoke_args ip_addr ((List.lookup "params" entries).getD (Py.list []))],
          some (return_result (Py.dict [("code", e0), ("message", e1)]) rid true))) ∧
    (∀ t,
      mth.run (invoke_args ip_addr ((List.lookup "params" entries).getD (Py.list []))) =
          Py.tuple t →
      t.length < 2 →
      srv.process_request (Py.dict entries) ip_addr = Except.error PyExc.indexError) ∧
    ((mth.run (invoke_args ip_addr ((List.lookup "params" entries).getD (Py.list [])))).isTuple
        = false →
      srv.process_request (Py.dict entries) ip_addr =
        Except.ok ([invoke_args ip_addr ((List.lookup "params" entries).getD (Py.list []))],
          some (return_result
            (mth.run (invoke_args ip_addr ((List.lookup "params" entries).getD (Py.list []))))
            rid false))) := by
  have hidn : rid.isNone = false := valid_id_not_none hv hid
  refine ⟨?_, ?_, ?_⟩
  · intro e0 e1 rest hres
    unfold JsonRpcServer.process_request
    simp [hv, hid, hm, hof, hinv, hidn, hres, return_error, geterrdata, Except.map]
  · intro t hres hlen
    unfold JsonRpcServer.process_request
    simp only [hv, hid, hm, hof, hinv, hidn]
    rcases t with _ | ⟨a, _ | ⟨b, t⟩⟩
    · simp [hv, hid, hm, hof, hinv, hidn, hres, return_error, geterrdata, Except.map]
    · simp [hv, hid, hm, hof, hinv, hidn, hres, return_error, geterrdata, Except.map]
    · simp only [List.length_cons] at hlen
      omega
  · intro hnt
    unfold JsonRpcServer.process_request
    simp only [hv, hid, hm, hof, hinv, hidn]
    cases hres : mth.run (invoke_args ip_addr ((List.lookup "params" entries).getD (Py.list []))) <;>
      simp [hv, hid, hm, hof, hinv, hidn, hres, Py.isTuple] <;>
      simp [hres, Py.isTuple] at hnt

/-- Witness for the amended C7: the 3-tuple-returning handler produces the
error envelope with code 5 and message "a" under id 1. -/
theorem C7_amended_tuple_return_witness :
    tripleServer.process_request reqForM Py.none =
      Except.ok ([CallArgs.positional Py.none []],
        some (return_result (Py.dict [("code", Py.int 5), ("message", Py.str "a")])
          (Py.int 1) true)) :=
  (C7_amended_tuple_return tripleServer
      [("jsonrpc", Py.str "2.0"), ("method", Py.str "m"), ("id", Py.int 1)]
      Py.none (Py.int 1) tripleMethod tripleSpec rfl rfl rfl rfl rfl).1
    (Py.int 5) (Py.str "a") [Py.int 7] rfl

/-- A POST environment with a valid JSON content type, no Accept header and
no remote address, carrying the given parsed body. -/
def postEnv (body : Option Py) : Env :=
  { request_method := "POST", content_type := some "application/json",
    http_accept := Option.none, remote_addr := Option.none, body := body }

/-- C8: on POST, the Content-Type header is required and must be a media type
with at most a single parameter that starts with `charset=`, the base media
type being exactly one of application/json-rpc, application/json,
application/jsonrequest; any violation — including an absent header — yields
HTTP 415 with the BadContentType error body. In particular
"application/json; charset=utf-8" is accepted and "text/plain" rejected. -/
theorem C8_content_type_gate (srv : JsonRpcServer) (env : Env)
    (hcfg : srv.allowed_origins = Option.none)
    (hpost : env.request_method = "POST")
    (hbad : env.content_type = Option.none ∨
      ∃ ct, env.content_type = some ct ∧ not_valid_content_type ct = true) :
    (srv.process_call env =
      Except.ok
        { started := some (HTTP_UNSUPPORTED_MEDIA, base_headers)
          result := some (return_result
            (Py.dict [("code", Py.int 1), ("message", Py.str "Bad or missing Content-Type header")])
            Py.none true)
          trace := [] }) ∧
    not_valid_content_type "application/json; charset=utf-8" = false ∧
    not_valid_content_type "text/plain" = true := by
  refine ⟨?_, rfl, rfl⟩
  rcases hbad with h | ⟨ct, hct, hctv⟩
  · unfold JsonRpcServer.process_call
    simp [hcfg, hpost, h, return_error, geterrdata, BAD_CONTENT_TYPE, Except.map]
  · unfold JsonRpcServer.process_call
    simp [hcfg, hpost, hct, hctv, return_error, geterrdata, BAD_CONTENT_TYPE, Except.map]

/-- Witness for C8: a POST with no Content-Type header gets status 415 and
the BadContentType body. -/
theorem C8_content_type_gate_witness :
    (emptyServer.process_call
        { request_method := "POST", content_type := Option.none,
          http_accept := Option.none, remote_addr := Option.none, body := Option.none } =
      Except.ok
        { started := some (HTTP_UNSUPPORTED_MEDIA, base_headers)
          result := some (return_result
            (Py.dict [("code", Py.int 1), ("message", Py.str "Bad or missing Content-Type header")])
            Py.none true)
          trace := [] }) ∧
    not_valid_content_type "application/json; charset=utf-8" = false ∧
    not_valid_content_type "text/plain" = true :=
  C8_content_type_gate emptyServer
    { request_method := "POST", content_type := Option.none,
      http_accept := Option.none, remote_addr := Option.none, body := Option.none }
    rfl rfl (Or.inl rfl)

/-- C9: a POST that passes the header checks and the (base-class) hook but
whose body fails UTF-8 decoding or JSON parsing yields HTTP 400 with a
ParseError (-32700) envelope whose id is null, and dispatch is never reached
(the handler-invocation trace is empty). -/
theorem C9_parse_error_short_circuit (srv : JsonRpcServer) (env : Env) (ct : String)
    (hcfg : srv.allowed_origins = Option.none)
    (hpost : env.request_method = "POST")
    (hct : env.content_type = some ct)
    (hctv : not_valid_content_type ct = false)
    (hacc : ∀ a, env.http_accept = some a → not_valid_content_type a = false)
    (hbody : env.body = Option.none) :
    srv.process_call env =
      Except.ok
        { started := some (HTTP_BAD_REQUEST, base_headers)
          result := some (return_result
            (Py.dict [("code", Py.int (-32700)), ("message", Py.str "Parse error")])
            Py.none true)
          trace := [] } := by
  unfold JsonRpcServer.process_call
  cases ha : env.http_accept with
  | none =>
      simp [hcfg, hpost, hct, hctv, ha, hbody, extra_checks, return_error, geterrdata,
        PARSE_ERROR, Except.map]
  | some a =>
      simp [hcfg, hpost, hct, hctv, ha, hacc a ha, hbody, extra_checks, return_error,
        geterrdata, PARSE_ERROR, Except.map]

/-- Witness for C9: a POST with valid headers and an unparsable body yields
the 400 ParseError outcome. -/
theorem C9_parse_error_short_circuit_witness :
    emptyServer.process_call (postEnv Option.none) =
      Except.ok
        { started := some (HTTP_BAD_REQUEST, base_headers)
          result := some (return_result
            (Py.dict [("code", Py.int (-32700)), ("message", Py.str "Parse error")])
            Py.none true)
          trace := [] } :=
  C9_parse_error_short_circuit emptyServer (postEnv Option.none) "application/json"
    rfl rfl rfl rfl (fun _ h => Option.noConfusion h) rfl

/-- The batch loop processes elements in order: given the per-element
outcomes, it returns the concatenated invocation traces and exactly the
non-`None` responses, preserving order. -/
theorem process_request_fold_spec (srv : JsonRpcServer) (ip_addr : Py)
    {reqs : List Py} {outs : List (List CallArgs × Option Py)}
    (hall : List.Forall₂ (fun r o => srv.process_request r ip_addr = Except.ok o) reqs outs) :
    srv.process_request_fold ip_addr reqs =
      Except.ok ((outs.map Prod.fst).flatten, outs.filterMap Prod.snd) := by
  induction hall with
  | nil => simp [JsonRpcServer.process_request_fold]
  | @cons r o rs os h1 h2 ih =>
      obtain ⟨tr, oo⟩ := o
      cases oo <;>
        simp [JsonRpcServer.process_request_fold, h1, ih]

/-- C4: `process_request_list` processes the requests in order and returns
exactly the non-suppressed responses in the original relative order; a batch
whose every element is suppressed gives "no content", which the transport
maps to status 204 with an empty body, while a non-empty response list is
emitted with status 200 and a JSON body. -/
theorem C4_batch_order_and_status (srv : JsonRpcServer) (env : Env) (ct : String)
    (reqs : List Py) (outs : List (List CallArgs × Option Py))
    (hcfg : srv.allowed_origins = Option.none)
    (hpost : env.request_method = "POST")
    (hct : env.content_type = some ct)
    (hctv : not_valid_content_type ct = false)
    (hacc : ∀ a, env.http_accept = some a → not_valid_content_type a = false)
    (hbody : env.body = some (Py.list reqs))
    (hall : List.Forall₂ (fun r o => srv.process_request r (ip_addr_of env) = Except.ok o)
      reqs outs) :
    (outs.filterMap Prod.snd = [] →
      srv.wsgi_call env = Except.ok
        ({ started := some (HTTP_NO_CONTENT, []), result := Option.none,
           trace := (outs.map Prod.fst).flatten }, WsgiBody.empty)) ∧
    (outs.filterMap Prod.snd ≠ [] →
      srv.wsgi_call env = Except.ok
        ({ started := some (HTTP_OK, base_headers),
           result := some (Py.list (outs.filterMap Prod.snd)),
           trace := (outs.map Prod.fst).flatten },
         WsgiBody.jsonOf (Py.list (outs.filterMap Prod.snd)))) := by
  have hfold := process_request_fold_spec srv (ip_addr_of env) hall
  constructor
  · intro hres
    unfold JsonRpcServer.wsgi_call JsonRpcServer.process_call JsonRpcServer.process_request_list
    cases ha : env.http_accept with
    | none =>
        simp [hcfg, hpost, hct, hctv, ha, hbody, extra_checks, hfold, hres, Except.map]
    | some a =>
        simp [hcfg, hpost, hct, hctv, ha, hacc a ha, hbody, extra_checks, hfold, hres,
          Except.map]
  · intro hres
    have hlen : (outs.filterMap Prod.snd).length = 0 ↔ False := by
      simp [List.length_eq_zero, hres]
    unfold JsonRpcServer.wsgi_call JsonRpcServer.process_call JsonRpcServer.process_request_list
    cases ha : env.http_accept with
    | none =>
        simp [hcfg, hpost, hct, hctv, ha, hbody, extra_checks, hfold, hlen, Except.map]
    | some a =>
        simp [hcfg, hpost, hct, hctv, ha, hacc a ha, hbody, extra_checks, hfold, hlen,
          Except.map]

/-- Batch element with an id: `add` of 1 and 1 under id 7. -/
def batchReq1 : Py :=
  Py.dict [("jsonrpc", Py.str "2.0"), ("method", Py.str "add"),
    ("params", Py.list [Py.int 1, Py.int 1]), ("id", Py.int 7)]

/-- Batch element without an id (a notification): `add` of 2 and 2. -/
def batchReq2 : Py :=
  Py.dict [("jsonrpc", Py.str "2.0"), ("method", Py.str "add"),
    ("params", Py.list [Py.int 2, Py.int 2])]

/-- The per-element outcomes of the two batch elements above on `addServer`. -/
def batchOuts : List (List CallArgs × Option Py) :=
  [([CallArgs.positional Py.none [Py.int 1, Py.int 1]],
      some (return_result (Py.int 2) (Py.int 7) false)),
   ([CallArgs.positional Py.none [Py.int 2, Py.int 2]], Option.none)]

/-- Witness for C4: the two-element batch produces exactly the one response
for the id-bearing element, in order, with status 200, while both handlers
ran; the notification entry is suppressed. -/
theorem C4_batch_order_and_status_witness :
    addServer.wsgi_call (postEnv (some (Py.list [batchReq1, batchReq2]))) =
      Except.ok
        ({ started := some (HTTP_OK, base_headers)
           result := some (Py.list [return_result (Py.int 2) (Py.int 7) false])
           trace := [CallArgs.positional Py.none [Py.int 1, Py.int 1],
             CallArgs.positional Py.none [Py.int 2, Py.int 2]] },
         WsgiBody.jsonOf (Py.list [return_result (Py.int 2) (Py.int 7) false])) :=
  ((C4_batch_order_and_status addServer (postEnv (some (Py.list [batchReq1, batchReq2])))
      "application/json" [batchReq1, batchReq2] batchOuts
      rfl rfl rfl rfl (fun _ h => Option.noConfusion h) rfl
      (List.Forall₂.cons rfl (List.Forall₂.cons rfl List.Forall₂.nil))).2
    (List.cons_ne_nil _ _)).trans rfl

end JsonRpcHttp
